import Mathlib

/-!
Verification development for the DID-Exchange connection-manager core of the
aries-cloudagent repository.

The only executable production module among the sources is
`protocols/coordinate_mediation/v1_0/messages/inner/keylist_update_rule.py`,
which is embedded here with explicit Python name-resolution semantics
(`pyLookup`, `evalName`, `keylistUpdateRule_init`).  The DID-Exchange manager
itself (`protocols/didexchange/v1_0/manager.py`) is not among the sources —
only its test suite is — so its operations are modelled from the
specification; every such definition carries a doc comment starting
`Modelled from the spec:`.
-/

/-! ## Python value and error model for the embedded source file -/

/-- A Python runtime value, restricted to the shapes that can occur while
executing the body of `KeylistUpdateRule.__init__`. -/
inductive PyVal where
  | pynone : PyVal
  | str : String → PyVal
  | cls : String → PyVal
  | dict : List (String × PyVal) → PyVal
deriving Repr

/-- A Python exception raised during evaluation. -/
inductive PyError where
  | nameError (n : String)
  | typeError (msg : String)
deriving DecidableEq, Repr

/-- Lookup of a name in one scope (an association list of bindings). -/
def pyLookup : List (String × PyVal) → String → Option PyVal
  | [], _ => none
  | (k, v) :: rest, n => if k = n then some v else pyLookup rest n

/-- Python name resolution: the local scope, then the module globals.  The
Python builtins scope binds no name used by the embedded constructor body, so
it is not represented; a name absent from both scopes raises `NameError`. -/
def evalName (locals globals : List (String × PyVal)) (n : String) :
    Except PyError PyVal :=
  match pyLookup locals n with
  | some v => Except.ok v
  | none =>
    match pyLookup globals n with
    | some v => Except.ok v
    | none => Except.error (PyError.nameError n)

/-- The names bound at module level of `keylist_update_rule.py`: its imports
(`fields`, `OneOf`, `BaseModel`, `BaseModelSchema`, `DID_KEY`, `DIDKey`,
`KeyType`) and the two classes the module defines. -/
def keylistUpdateRuleGlobals : List (String × PyVal) :=
  [("fields", PyVal.cls "fields"),
   ("OneOf", PyVal.cls "OneOf"),
   ("BaseModel", PyVal.cls "BaseModel"),
   ("BaseModelSchema", PyVal.cls "BaseModelSchema"),
   ("DID_KEY", PyVal.cls "DID_KEY"),
   ("DIDKey", PyVal.cls "DIDKey"),
   ("KeyType", PyVal.cls "KeyType"),
   ("KeylistUpdateRule", PyVal.cls "KeylistUpdateRule"),
   ("KeylistUpdateRuleSchema", PyVal.cls "KeylistUpdateRuleSchema")]

/-- A keylist-update rule: one item of a keylist-update message, as the class
`KeylistUpdateRule` stores it (fields `recipient_key` and `action`). -/
structure KeylistUpdateRule where
  recipient_key : String
  action : String
deriving DecidableEq, Repr

namespace KeylistUpdateRule

/-- `KeylistUpdateRule.RULE_ADD` from the source. -/
def RULE_ADD : String := "add"

/-- `KeylistUpdateRule.RULE_REMOVE` from the source. -/
def RULE_REMOVE : String := "remove"

end KeylistUpdateRule

/-- Modelled from the spec: the `did` attribute of
`DIDKey.from_public_key_b58(key, KeyType.ED25519)` — the module
`did/did_key.py` is not among the sources.  Per the glossary a did:key is a
self-certifying identifier derived from the key; only its being a
`did:key:`-prefixed string distinct from the raw base58 form matters here,
and the call site is unreachable in `keylistUpdateRule_init` anyway because
evaluating the name `key` raises `NameError` first. -/
def didkeyFromPublicKeyB58 (b58 : String) : String :=
  "did:key:z" ++ b58

/-- Embedding of `KeylistUpdateRule.__init__(self, recipient_key, action,
**kwargs)` from `keylist_update_rule.py` lines 27-41.  The local scope at
entry binds exactly the parameters `self`, `recipient_key`, `action` and
`kwargs`; `super().__init__(**kwargs)` is external (`BaseModel` is not among
the sources) and assigns no field of this class.  The constructor body then
evaluates `key.startswith("did:key:")` — the name `key`, resolved through
locals and module globals. -/
def keylistUpdateRule_init (recipient_key action : String) :
    Except PyError KeylistUpdateRule := do
  let locals : List (String × PyVal) :=
    [("self", PyVal.cls "KeylistUpdateRule"),
     ("recipient_key", PyVal.str recipient_key),
     ("action", PyVal.str action),
     ("kwargs", PyVal.dict [])]
  -- if key.startswith("did:key:"):
  let keyVal ← evalName locals keylistUpdateRuleGlobals "key"
  let keyStr ←
    match keyVal with
    | PyVal.str s => Except.ok s
    | _ => Except.error (PyError.typeError "startswith")
  if keyStr.startsWith "did:key:" then
    -- self.recipient_key = recipient_key
    Except.ok { recipient_key := recipient_key, action := action }
  else do
    -- self.recipient_key = DIDKey.from_public_key_b58(key, KeyType.ED25519).did
    let keyVal2 ← evalName locals keylistUpdateRuleGlobals "key"
    let keyStr2 ←
      match keyVal2 with
      | PyVal.str s => Except.ok s
      | _ => Except.error (PyError.typeError "from_public_key_b58")
    Except.ok { recipient_key := didkeyFromPublicKeyB58 keyStr2, action := action }

/-! ## Spec-modelled data model of the DID-Exchange core -/

/-- Modelled from the spec: the DID-Exchange negotiation states of a
Connection Record (spec section 4.1). -/
inductive ConnState where
  | invitation
  | request
  | response
  | completed
  | abandoned
deriving DecidableEq, Repr

/-- Modelled from the spec: a Connection Record (spec section 3), restricted
to the attributes the claims touch; `models/conn_record.py` is not among the
sources. -/
structure ConnRecord where
  connection_id : String
  state : ConnState
  my_did : Option String
  their_did : Option String
  invitation_key : String
  request_id : Option String
  multi_use : Bool
  accept_manual : Bool
deriving DecidableEq, Repr

/-- Modelled from the spec: a local DID with its verification key, as returned
by the wallet (`wallet/did_info.py` is not among the sources). -/
structure DIDInfo where
  did : String
  verkey : String
deriving DecidableEq, Repr

/-- Modelled from the spec: the process settings the multi-tenant key
registrar consults (`multitenant.enabled` and `wallet.id`). -/
structure TenantConfig where
  multitenant_enabled : Bool
  wallet_id : Option String
deriving DecidableEq, Repr

/-- Modelled from the spec: the states of a mediation record that matter to
the manager (`models/mediation_record.py` is not among the sources). -/
inductive MediationState where
  | requested
  | granted
  | denied
deriving DecidableEq, Repr

/-- Modelled from the spec: a mediation record, the provider of routing
keys and an endpoint (spec sections 2 and 6). -/
structure MediationRecord where
  state : MediationState
  connection_id : String
  routing_keys : List String
  endpoint : String
deriving DecidableEq, Repr

/-- A keylist-update message: a list of keylist-update rules, matching the
`updates` attribute asserted on by the tests. -/
structure KeylistUpdateMsg where
  updates : List KeylistUpdateRule
deriving DecidableEq, Repr

/-- The error taxonomy of the manager operations (spec section 7):
`DIDXManagerError`, `BaseConnectionManagerError`, and an unhandled Python
exception escaping from embedded source code. -/
inductive MgrError where
  | didxError (msg : String)
  | baseConnError (msg : String)
  | pyError (e : PyError)
deriving DecidableEq, Repr

/-- Modelled from the spec: provisioning of the local DID inside a manager
operation (spec sections 4.1 and 4.4).  A pre-existing DID is reused with no
registrar call; a freshly generated one is registered with the multi-tenant
key registrar exactly once when multi-tenancy is active.  Returns the DID
used and the list of `add_key (wallet_id, verkey)` calls issued. -/
def provision_local_did (cfg : TenantConfig) (existing : Option DIDInfo)
    (fresh : DIDInfo) : DIDInfo × List (String × String) :=
  match existing with
  | some info => (info, [])
  | none =>
    match cfg.multitenant_enabled, cfg.wallet_id with
    | true, some wid => (fresh, [(wid, fresh.verkey)])
    | _, _ => (fresh, [])

/-- Construction of the one-rule keylist-update message a mediated operation
emits.  The rule goes through the embedded `KeylistUpdateRule.__init__`
constructor from the source file; a Python exception raised there escapes. -/
def mediated_keylist_update (verkey action : String) :
    Except PyError KeylistUpdateMsg := do
  let rule ← keylistUpdateRule_init verkey action
  Except.ok { updates := [rule] }

/-! ## Signed attachments and DID documents -/

/-- Modelled from the spec: a signed attachment (the signing capability of
spec section 6 treated as opaque and perfect).  `content` is the carried
payload; `signature`, when present, records the signer verification key and a
snapshot of the content at signing time; a signature verifies exactly when
the content still equals that snapshot. -/
structure SignedAttachment (α : Type) where
  content : α
  signature : Option (String × α)
deriving DecidableEq, Repr

/-- Modelled from the spec: `sign(payload, key)` of the signing capability —
attach a signature by `k` over the current content. -/
def sign_attachment {α : Type} (k : String) (a : SignedAttachment α) :
    SignedAttachment α :=
  { a with signature := some (k, a.content) }

/-- Replacing the encoded payload of an attachment after signing (the
tampering step of the tests). -/
def replace_content {α : Type} (c : α) (a : SignedAttachment α) :
    SignedAttachment α :=
  { a with content := c }

/-- Modelled from the spec: `verify(attachment)` of the signing capability —
true exactly when a signature is present and was produced over the current
content. -/
def verify_attachment {α : Type} [DecidableEq α] (a : SignedAttachment α) :
    Bool :=
  match a.signature with
  | none => false
  | some (_, snap) => snap = a.content

/-- Modelled from the spec: one service block of a DID Document (spec
section 3); `models/diddoc` is not among the sources. -/
structure Service where
  recipient_keys : List String
  routing_keys : List String
  endpoint : String
deriving DecidableEq, Repr

/-- Modelled from the spec: a DID Document (spec section 3), restricted to
the attributes the claims touch.  The owning DID is optional: the
underspecified documents of the tests carry none. -/
structure DIDDoc where
  did : Option String
  service : List Service
deriving DecidableEq, Repr

/-- Modelled from the spec: `verify_diddoc(signed_attachment)` of the
manager (spec section 4.1): fails with a verification error if the signature
is absent or does not verify, else yields the attached document. -/
def verify_diddoc (a : SignedAttachment DIDDoc) : Except MgrError DIDDoc :=
  if verify_attachment a then
    Except.ok a.content
  else
    Except.error (MgrError.didxError "DIDDoc signature failed verification")

/-- Modelled from the spec: a connection target (spec section 4.3);
`models/connection_target.py` is not among the sources. -/
structure ConnectionTarget where
  did : String
  endpoint : String
  recipient_keys : List String
  routing_keys : List String
  sender_key : String
deriving DecidableEq, Repr

/-- Modelled from the spec: `diddoc_connection_targets(doc, sender_verkey)`
(spec section 4.3): fails if the document is absent, has no DID, or has no
services; else derives one target per service. -/
def diddoc_connection_targets (doc : Option DIDDoc) (sender_verkey : String) :
    Except MgrError (List ConnectionTarget) :=
  match doc with
  | none => Except.error (MgrError.baseConnError "No DIDDoc provided")
  | some d =>
    match d.did with
    | none => Except.error (MgrError.baseConnError "DIDDoc has no DID")
    | some owner =>
      if d.service = [] then
        Except.error (MgrError.baseConnError "No services defined by DIDDoc")
      else
        Except.ok (d.service.map fun s =>
          { did := owner, endpoint := s.endpoint,
            recipient_keys := s.recipient_keys,
            routing_keys := s.routing_keys,
            sender_key := sender_verkey })

/-! ## Spec-modelled manager operations -/

/-- The outcome of a successful manager operation: the produced message (if
any), the updated Connection Record, the keylist-update messages handed to
the responder, and the `add_key (wallet_id, verkey)` calls issued to the
multi-tenant key registrar. -/
structure OpResult (μ : Type) where
  message : μ
  record : ConnRecord
  keylist_updates : List KeylistUpdateMsg
  add_key_calls : List (String × String)
deriving Repr

/-- A DID-Exchange request message, restricted to what the claims touch. -/
structure DIDXRequest where
  did : String
  thread_id : String
deriving DecidableEq, Repr

/-- A DID-Exchange response message, restricted to what the claims touch. -/
structure DIDXResponse where
  did : String
  thread_id : String
deriving DecidableEq, Repr

/-- Modelled from the spec: retrieval of the mediation record for a supplied
mediation id — the record must be in GRANTED state to be used (spec sections
4.1 and 6; the mediation manager is not among the sources). -/
def mediation_record_if_granted (m : Option MediationRecord) :
    Except MgrError (Option MediationRecord) :=
  match m with
  | none => Except.ok none
  | some rec0 =>
    if rec0.state = MediationState.granted then Except.ok (some rec0)
    else Except.error (MgrError.didxError "Mediation is not granted")

/-- Modelled from the spec: `create_request(connection_record, my_endpoint?,
mediation_id?)` (spec section 4.1).  Allocates or reuses the local DID
(multi-tenant registration via `provision_local_did`), sets the thread id,
moves the record to REQUEST, and, when a mediation id is supplied, issues a
keylist-update addition for the newly minted key through the embedded rule
constructor. -/
def create_request (r : ConnRecord) (cfg : TenantConfig)
    (existing : Option DIDInfo) (fresh : DIDInfo)
    (mediation : Option MediationRecord) :
    Except MgrError (OpResult DIDXRequest) := do
  let mrec ← mediation_record_if_granted mediation
  let (my_info, add_calls) := provision_local_did cfg existing fresh
  let keylist_msgs ←
    match mrec with
    | none => Except.ok []
    | some _ =>
      match mediated_keylist_update my_info.verkey KeylistUpdateRule.RULE_ADD with
      | Except.ok msg => Except.ok [msg]
      | Except.error e => Except.error (MgrError.pyError e)
  let thread_id := r.connection_id ++ "-request"
  Except.ok
    { message := { did := my_info.did, thread_id := thread_id },
      record := { r with state := ConnState.request,
                         my_did := some my_info.did,
                         request_id := some thread_id },
      keylist_updates := keylist_msgs,
      add_key_calls := add_calls }

/-- Modelled from the spec: `create_response(connection_record, my_endpoint?,
mediation_id?)` (spec section 4.1).  Requires the record be in REQUEST state
and fails otherwise; allocates or reuses the local DID exactly as
`create_request` does; moves the record to RESPONSE; when a mediation id is
supplied, issues a keylist-update addition for the newly minted key through
the embedded rule constructor. -/
def create_response (r : ConnRecord) (cfg : TenantConfig)
    (existing : Option DIDInfo) (fresh : DIDInfo)
    (mediation : Option MediationRecord) :
    Except MgrError (OpResult DIDXResponse) := do
  if r.state = ConnState.request then
    let mrec ← mediation_record_if_granted mediation
    let (my_info, add_calls) := provision_local_did cfg existing fresh
    let keylist_msgs ←
      match mrec with
      | none => Except.ok []
      | some _ =>
        match mediated_keylist_update my_info.verkey KeylistUpdateRule.RULE_ADD with
        | Except.ok msg => Except.ok [msg]
        | Except.error e => Except.error (MgrError.pyError e)
    Except.ok
      { message := { did := my_info.did,
                     thread_id := r.request_id.getD r.connection_id },
        record := { r with state := ConnState.response,
                           my_did := some my_info.did },
        keylist_updates := keylist_msgs,
        add_key_calls := add_calls }
  else
    Except.error
      (MgrError.didxError "Connection not in state request")

/-- Modelled from the spec: the record-resolution part of
`receive_request` (spec section 4.1 steps 4 and 5), applied to the record
found by invitation key.  A multi-use record spawns a brand-new record with a
freshly generated local key (multi-tenant registration applies); a
non-multi-use record is reused in place — a mismatch between the expected
invitation key and the found record's key is a hard error, and when a
mediator manages the record a keylist-update removal of the original
invitation key is issued through the embedded rule constructor. -/
def receive_request (found : ConnRecord) (cfg : TenantConfig)
    (fresh : DIDInfo) (expected_invitation_key : String)
    (mediation : Option MediationRecord) :
    Except MgrError (OpResult Unit) := do
  if found.multi_use then
    let (my_info, add_calls) := provision_local_did cfg none fresh
    Except.ok
      { message := (),
        record := { connection_id := found.connection_id ++ "-new",
                    state := ConnState.request,
                    my_did := some my_info.did,
                    their_did := found.their_did,
                    invitation_key := found.invitation_key,
                    request_id := found.request_id,
                    multi_use := false,
                    accept_manual := found.accept_manual },
        keylist_updates := [],
        add_key_calls := add_calls }
  else
    if found.invitation_key = expected_invitation_key then
      let mrec ← mediation_record_if_granted mediation
      let keylist_msgs ←
        match mrec with
        | none => Except.ok []
        | some _ =>
          match mediated_keylist_update found.invitation_key
              KeylistUpdateRule.RULE_REMOVE with
          | Except.ok msg => Except.ok [msg]
          | Except.error e => Except.error (MgrError.pyError e)
      Except.ok
        { message := (),
          record := { found with state := ConnState.request },
          keylist_updates := keylist_msgs,
          add_key_calls := [] }
    else
      Except.error
        (MgrError.didxError "Connection invitation key mismatch")

/-- Modelled from the spec: the message receipt carried with an inbound
message (`transport/inbound/receipt.py` is not among the sources). -/
structure MessageReceipt where
  sender_did : Option String
deriving DecidableEq, Repr

/-- A DID-Exchange response message as received, with its signed DID Document
attachment. -/
structure DIDXResponseMsg where
  did : String
  thread_id : String
  did_doc_attach : Option (SignedAttachment DIDDoc)
deriving DecidableEq, Repr

/-- Modelled from the spec: storage lookup `retrieve_by_request_id` (spec
section 6) over an explicit record store; not-found is the `none` outcome. -/
def retrieve_by_request_id (store : List ConnRecord) (tid : String) :
    Option ConnRecord :=
  store.find? fun r => r.request_id = some tid

/-- Modelled from the spec: storage lookup `retrieve_by_did` (spec
section 6) over an explicit record store; not-found is the `none` outcome. -/
def retrieve_by_did (store : List ConnRecord) (their : String) :
    Option ConnRecord :=
  store.find? fun r => r.their_did = some their

/-- Modelled from the spec: the two-step record resolution of
`accept_response` (spec section 4.1): first by the response's thread id; on
not-found, by the sender DID carried in the receipt; a manager error when
neither resolves. -/
def accept_response_resolve (store : List ConnRecord) (tid : String)
    (receipt : MessageReceipt) : Except MgrError ConnRecord :=
  match retrieve_by_request_id store tid with
  | some r => Except.ok r
  | none =>
    match receipt.sender_did with
    | some sdid =>
      match retrieve_by_did store sdid with
      | some r => Except.ok r
      | none =>
        Except.error
          (MgrError.didxError "No corresponding connection record found")
    | none =>
      Except.error
        (MgrError.didxError "No corresponding connection record found")

/-- Modelled from the spec: `accept_response(response, receipt)` (spec
section 4.1).  Resolves the record (two-step), requires it be in REQUEST or
RESPONSE state, verifies and deserializes the attached DID Document, requires
the declared `did` equal the document's subject DID, then records the peer
association and moves the record to COMPLETED. -/
def accept_response (store : List ConnRecord) (resp : DIDXResponseMsg)
    (receipt : MessageReceipt) : Except MgrError ConnRecord := do
  let r ← accept_response_resolve store resp.thread_id receipt
  if r.state = ConnState.request ∨ r.state = ConnState.response then
    match resp.did_doc_attach with
    | none =>
      Except.error
        (MgrError.didxError "DIDDoc attachment missing or has no data")
    | some attach => do
      let doc ← verify_diddoc attach
      if doc.did = some resp.did then
        Except.ok { r with their_did := some resp.did,
                           state := ConnState.completed }
      else
        Except.error
          (MgrError.didxError "Connection DID does not match DIDDoc id")
  else
    Except.error
      (MgrError.didxError "Cannot accept response for connection in state")

/-- Modelled from the spec: the per-service walk of the routing DID Document
inside `create_did_document` (spec section 4.2): every service must carry a
non-empty endpoint and at least one recipient key; the walk accumulates the
routing keys folded into the resulting document. -/
def routing_info : List Service → Except MgrError (List String)
  | [] => Except.ok []
  | s :: rest =>
    if s.endpoint = "" then
      Except.error
        (MgrError.baseConnError "Routing DIDDoc service has no service endpoint")
    else if s.recipient_keys = [] then
      Except.error
        (MgrError.baseConnError "Routing DIDDoc service has no recipient keys")
    else do
      let rks ← routing_info rest
      Except.ok (s.routing_keys ++ s.recipient_keys.take 1 ++ rks)

/-- Modelled from the spec: `create_did_document(did_info, ...)` (spec
section 4.2) in the mediated/routed configuration of the tests: the inbound
routing connection must be COMPLETED, its stored peer document must define at
least one service, and every such service must carry a non-empty endpoint and
at least one recipient key; the resulting document carries one service per
routing endpoint, each with the local verification key as recipient key. -/
def create_did_document (did_info : DIDInfo) (router_conn : ConnRecord)
    (router_doc : DIDDoc) : Except MgrError DIDDoc := do
  if router_conn.state = ConnState.completed then
    if router_doc.service = [] then
      Except.error
        (MgrError.baseConnError "No services defined by routing DIDDoc")
    else do
      let rks ← routing_info router_doc.service
      Except.ok
        { did := some did_info.did,
          service := router_doc.service.map fun s =>
            { recipient_keys := [did_info.verkey],
              routing_keys := rks,
              endpoint := s.endpoint } }
  else
    Except.error
      (MgrError.baseConnError "Router connection not completed")

/-! ## Helper lemmas -/

theorem keylistUpdateRule_init_eq (recipient_key action : String) :
    keylistUpdateRule_init recipient_key action =
      Except.error (PyError.nameError "key") := rfl

theorem mediated_keylist_update_eq (verkey action : String) :
    mediated_keylist_update verkey action =
      Except.error (PyError.nameError "key") := rfl

/-! ## Claim theorems -/

/-- C2: every invocation of the `KeylistUpdateRule` constructor, whatever the
values of `recipient_key` and `action`, raises an unhandled `NameError`
before assigning any field, because the body reads the undefined name `key`;
consequently no `KeylistUpdateRule` instance is ever constructed through
`__init__`. -/
theorem keylistUpdateRule_init_never_constructs (recipient_key action : String) :
    keylistUpdateRule_init recipient_key action =
        Except.error (PyError.nameError "key") ∧
      ∀ rule : KeylistUpdateRule,
        keylistUpdateRule_init recipient_key action ≠ Except.ok rule := by
  refine ⟨keylistUpdateRule_init_eq recipient_key action, ?_⟩
  intro rule h
  rw [keylistUpdateRule_init_eq] at h
  exact Except.noConfusion h

/-- C1: contrary to the claim, a `create_response` call on a REQUEST-state
record with a GRANTED mediation record can never succeed and emit a
keylist-update addition: building the single ADD rule goes through
`KeylistUpdateRule.__init__`, whose body reads the undefined name `key`, so
the operation aborts with an unhandled `NameError` and emits nothing. -/
theorem create_response_mediated_raises_nameError (r : ConnRecord)
    (cfg : TenantConfig) (existing : Option DIDInfo) (fresh : DIDInfo)
    (m : MediationRecord) (hs : r.state = ConnState.request)
    (hg : m.state = MediationState.granted) :
    create_response r cfg existing fresh (some m) =
      Except.error (MgrError.pyError (PyError.nameError "key")) := by
  simp [create_response, hs, mediation_record_if_granted, hg,
    mediated_keylist_update_eq, bind, Except.bind]

/-- C3: contrary to the claim, reusing a non-multi-use INVITATION record
under a GRANTED mediator can never emit the keylist-update removal of the
original invitation key: building the single REMOVE rule goes through
`KeylistUpdateRule.__init__`, whose body reads the undefined name `key`, so
`receive_request` aborts with an unhandled `NameError` and emits nothing. -/
theorem receive_request_reuse_mediated_raises_nameError (found : ConnRecord)
    (cfg : TenantConfig) (fresh : DIDInfo) (m : MediationRecord)
    (hmu : found.multi_use = false) (hg : m.state = MediationState.granted) :
    receive_request found cfg fresh found.invitation_key (some m) =
      Except.error (MgrError.pyError (PyError.nameError "key")) := by
  simp [receive_request, hmu, mediation_record_if_granted, hg,
    mediated_keylist_update_eq, bind, Except.bind]

/-! ## Sample data for witnesses -/

/-- The test verification key `3Dn1...TRx` with its DID, as a sample freshly
minted local identity. -/
def sampleFresh : DIDInfo :=
  { did := "55GkHamhTU1ZbTbV2ab9DE",
    verkey := "3Dn1SJNPaCXcvvJvSbsFWP2xaCjMom3can8CQNhWrTRx" }

/-- A sample Connection Record in REQUEST state. -/
def sampleRequestRecord : ConnRecord :=
  { connection_id := "dummy", state := ConnState.request,
    my_did := none, their_did := none,
    invitation_key := "3Dn1SJNPaCXcvvJvSbsFWP2xaCjMom3can8CQNhWrTRx",
    request_id := some "thread-1", multi_use := false,
    accept_manual := true }

/-- A sample Connection Record in ABANDONED state. -/
def sampleAbandonedRecord : ConnRecord :=
  { sampleRequestRecord with state := ConnState.abandoned }

/-- A sample GRANTED mediation record, as in the tests. -/
def sampleGrantedMediation : MediationRecord :=
  { state := MediationState.granted, connection_id := "mediator-conn-id",
    routing_keys := ["routing-key-1"],
    endpoint := "http://mediator.example.com" }

/-- A plain single-tenant configuration. -/
def sampleCfg : TenantConfig := { multitenant_enabled := false, wallet_id := none }

theorem create_response_mediated_raises_nameError_witness :
    create_response sampleRequestRecord sampleCfg none sampleFresh
        (some sampleGrantedMediation) =
      Except.error (MgrError.pyError (PyError.nameError "key")) :=
  create_response_mediated_raises_nameError sampleRequestRecord sampleCfg none
    sampleFresh sampleGrantedMediation (by decide) (by decide)

theorem receive_request_reuse_mediated_raises_nameError_witness :
    receive_request sampleRequestRecord sampleCfg sampleFresh
        sampleRequestRecord.invitation_key (some sampleGrantedMediation) =
      Except.error (MgrError.pyError (PyError.nameError "key")) :=
  receive_request_reuse_mediated_raises_nameError sampleRequestRecord sampleCfg
    sampleFresh sampleGrantedMediation (by decide) (by decide)

/-- C4: `verify_diddoc` succeeds, returning the attached DID Document, if and
only if the attachment carries a signature that verifies against the declared
signer key: an unsigned attachment fails with a verification error, a
correctly signed attachment succeeds, and an attachment whose payload is
replaced after signing fails with a verification error. -/
theorem verify_diddoc_signature_iff (a : SignedAttachment DIDDoc) (k : String)
    (d2 : DIDDoc) :
    (a.signature = none →
        verify_diddoc a =
          Except.error (MgrError.didxError "DIDDoc signature failed verification")) ∧
    verify_diddoc (sign_attachment k a) = Except.ok a.content ∧
    (d2 ≠ a.content →
        verify_diddoc (replace_content d2 (sign_attachment k a)) =
          Except.error (MgrError.didxError "DIDDoc signature failed verification")) ∧
    ((∃ d, verify_diddoc a = Except.ok d) ↔
      ∃ k0, a.signature = some (k0, a.content)) := by
  refine ⟨?_, ?_, ?_, ?_⟩
  · intro hnone
    simp [verify_diddoc, verify_attachment, hnone]
  · simp [verify_diddoc, verify_attachment, sign_attachment]
  · intro hne
    simp [verify_diddoc, verify_attachment, sign_attachment, replace_content, hne]
    intro h
    exact absurd h.symm hne
  · constructor
    · rintro ⟨d, hd⟩
      rcases hsig : a.signature with _ | ⟨k0, snap⟩
      · simp [verify_diddoc, verify_attachment, hsig] at hd
      · refine ⟨k0, ?_⟩
        by_cases hsnap : snap = a.content
        · rw [hsnap]
        · simp [verify_diddoc, verify_attachment, hsig, hsnap] at hd
    · rintro ⟨k0, hsig⟩
      exact ⟨a.content, by simp [verify_diddoc, verify_attachment, hsig]⟩

/-- A sample service block with one recipient key and a non-empty endpoint. -/
def sampleService : Service :=
  { recipient_keys := ["9WCgWKUaAJj3VWxxtzvvMQN3AoFxoBtBDo9ntwJnVVCC"],
    routing_keys := [], endpoint := "http://localhost" }

/-- A sample DID Document with one service. -/
def sampleDoc : DIDDoc :=
  { did := some "GbuDUYXaUZRfHD2jeDuQuP", service := [sampleService] }

/-- A second, different sample DID Document, used as tampered content. -/
def sampleDoc2 : DIDDoc :=
  { did := some "55GkHamhTU1ZbTbV2ab9DE", service := [] }

/-- A sample unsigned attachment carrying `sampleDoc`. -/
def sampleUnsigned : SignedAttachment DIDDoc :=
  { content := sampleDoc, signature := none }

theorem verify_diddoc_signature_iff_witness :
    verify_diddoc sampleUnsigned =
        Except.error (MgrError.didxError "DIDDoc signature failed verification") ∧
      verify_diddoc (sign_attachment sampleFresh.verkey sampleUnsigned) =
        Except.ok sampleDoc ∧
      verify_diddoc
          (replace_content sampleDoc2
            (sign_attachment sampleFresh.verkey sampleUnsigned)) =
        Except.error (MgrError.didxError "DIDDoc signature failed verification") := by
  have h := verify_diddoc_signature_iff sampleUnsigned sampleFresh.verkey sampleDoc2
  exact ⟨h.1 rfl, h.2.1, h.2.2.1 (by decide)⟩

/-- C5: `create_response` on a record whose state is not REQUEST (for example
ABANDONED) fails with the state error and mutates nothing; on a REQUEST-state
record (unmediated) it succeeds, returns a response message threaded to the
request id, and the records state becomes RESPONSE. -/
theorem create_response_state_gate (r : ConnRecord) (cfg : TenantConfig)
    (existing : Option DIDInfo) (fresh : DIDInfo) :
    (r.state ≠ ConnState.request →
        create_response r cfg existing fresh none =
          Except.error (MgrError.didxError "Connection not in state request")) ∧
    (r.state = ConnState.request →
        ∃ out : OpResult DIDXResponse,
          create_response r cfg existing fresh none = Except.ok out ∧
            out.record.state = ConnState.response ∧
            out.message.thread_id = r.request_id.getD r.connection_id) := by
  constructor
  · intro hne
    simp [create_response, hne]
  · intro hs
    refine ⟨{ message := { did := (provision_local_did cfg existing fresh).1.did,
                           thread_id := r.request_id.getD r.connection_id },
              record := { r with state := ConnState.response,
                                 my_did := some (provision_local_did cfg existing fresh).1.did },
              keylist_updates := [],
              add_key_calls := (provision_local_did cfg existing fresh).2 }, ?_, rfl, rfl⟩
    simp [create_response, hs, mediation_record_if_granted, bind, Except.bind]

theorem create_response_state_gate_witness :
    create_response sampleAbandonedRecord sampleCfg none sampleFresh none =
        Except.error (MgrError.didxError "Connection not in state request") ∧
      ∃ out : OpResult DIDXResponse,
        create_response sampleRequestRecord sampleCfg none sampleFresh none =
            Except.ok out ∧
          out.record.state = ConnState.response ∧
          out.message.thread_id =
            sampleRequestRecord.request_id.getD sampleRequestRecord.connection_id := by
  have h1 := create_response_state_gate sampleAbandonedRecord sampleCfg none sampleFresh
  have h2 := create_response_state_gate sampleRequestRecord sampleCfg none sampleFresh
  exact ⟨h1.1 (by decide), h2.2 rfl⟩

/-- C6: `accept_response` resolves its Connection Record first by the
responses thread/request id; exactly on not-found it falls back to the
sender DID carried in the receipt; and it raises a manager error if and only
if both lookups fail. -/
theorem accept_response_resolution_order (store : List ConnRecord)
    (tid : String) (receipt : MessageReceipt) :
    (∀ r, retrieve_by_request_id store tid = some r →
        accept_response_resolve store tid receipt = Except.ok r) ∧
    (∀ r sdid, retrieve_by_request_id store tid = none →
        receipt.sender_did = some sdid →
        retrieve_by_did store sdid = some r →
        accept_response_resolve store tid receipt = Except.ok r) ∧
    ((∃ e, accept_response_resolve store tid receipt = Except.error e) ↔
      (retrieve_by_request_id store tid = none ∧
        ∀ sdid, receipt.sender_did = some sdid →
          retrieve_by_did store sdid = none)) := by
  refine ⟨?_, ?_, ?_⟩
  · intro r hr
    simp [accept_response_resolve, hr]
  · intro r sdid hnone hsdid hdid
    simp [accept_response_resolve, hnone, hsdid, hdid]
  · constructor
    · rintro ⟨e, he⟩
      rcases hreq : retrieve_by_request_id store tid with _ | r
      · refine ⟨rfl, ?_⟩
        intro sdid hsdid
        rcases hdid : retrieve_by_did store sdid with _ | r2
        · rfl
        · simp [accept_response_resolve, hreq, hsdid, hdid] at he
      · simp [accept_response_resolve, hreq] at he
    · rintro ⟨hnone, hall⟩
      rcases hsd : receipt.sender_did with _ | sdid
      · exact ⟨MgrError.didxError "No corresponding connection record found",
          by simp [accept_response_resolve, hnone, hsd]⟩
      · exact ⟨MgrError.didxError "No corresponding connection record found",
          by simp [accept_response_resolve, hnone, hsd, hall sdid hsd]⟩

/-- A sample peer record findable only by its peer DID. -/
def samplePeerRecord : ConnRecord :=
  { connection_id := "peer-conn", state := ConnState.request,
    my_did := none, their_did := some "GbuDUYXaUZRfHD2jeDuQuP",
    invitation_key := "9WCgWKUaAJj3VWxxtzvvMQN3AoFxoBtBDo9ntwJnVVCC",
    request_id := none, multi_use := false, accept_manual := true }

theorem accept_response_resolution_order_witness :
    accept_response_resolve [sampleRequestRecord] "thread-1"
        { sender_did := none } = Except.ok sampleRequestRecord ∧
      accept_response_resolve [samplePeerRecord] "thread-1"
          { sender_did := some "GbuDUYXaUZRfHD2jeDuQuP" } =
        Except.ok samplePeerRecord ∧
      ∃ e, accept_response_resolve [] "thread-1"
          { sender_did := some "GbuDUYXaUZRfHD2jeDuQuP" } = Except.error e := by
  have h1 := accept_response_resolution_order [sampleRequestRecord] "thread-1"
    { sender_did := none }
  have h2 := accept_response_resolution_order [samplePeerRecord] "thread-1"
    { sender_did := some "GbuDUYXaUZRfHD2jeDuQuP" }
  have h3 := accept_response_resolution_order [] "thread-1"
    { sender_did := some "GbuDUYXaUZRfHD2jeDuQuP" }
  refine ⟨h1.1 sampleRequestRecord rfl,
    h2.2.1 samplePeerRecord "GbuDUYXaUZRfHD2jeDuQuP" rfl rfl rfl, ?_⟩
  exact h3.2.2.mpr ⟨rfl, fun sdid _ => rfl⟩

/-- C7: on a resolved record, `accept_response` hard-fails when the record is
in neither REQUEST nor RESPONSE state, hard-fails when the responses declared
did differs from the subject DID of the verified attached DID Document, and
otherwise moves the record to COMPLETED, records the peer DID, and returns
it. -/
theorem accept_response_state_did_checks (store : List ConnRecord)
    (resp : DIDXResponseMsg) (receipt : MessageReceipt) (r : ConnRecord)
    (hres : accept_response_resolve store resp.thread_id receipt = Except.ok r) :
    (¬(r.state = ConnState.request ∨ r.state = ConnState.response) →
        accept_response store resp receipt =
          Except.error
            (MgrError.didxError "Cannot accept response for connection in state")) ∧
    (∀ attach doc,
        (r.state = ConnState.request ∨ r.state = ConnState.response) →
        resp.did_doc_attach = some attach →
        verify_diddoc attach = Except.ok doc →
        doc.did ≠ some resp.did →
        accept_response store resp receipt =
          Except.error
            (MgrError.didxError "Connection DID does not match DIDDoc id")) ∧
    (∀ attach doc,
        (r.state = ConnState.request ∨ r.state = ConnState.response) →
        resp.did_doc_attach = some attach →
        verify_diddoc attach = Except.ok doc →
        doc.did = some resp.did →
        accept_response store resp receipt =
          Except.ok { r with their_did := some resp.did,
                             state := ConnState.completed }) := by
  refine ⟨?_, ?_, ?_⟩
  · intro hbad
    simp [accept_response, hres, hbad, bind, Except.bind]
  · intro attach doc hgood hattach hverify hne
    simp [accept_response, hres, hgood, hattach, hverify, hne, bind, Except.bind]
  · intro attach doc hgood hattach hverify heq
    simp [accept_response, hres, hgood, hattach, hverify, heq, bind, Except.bind]

/-- A sample signed attachment over `sampleDoc`. -/
def sampleSignedAttach : SignedAttachment DIDDoc :=
  sign_attachment "3Dn1SJNPaCXcvvJvSbsFWP2xaCjMom3can8CQNhWrTRx" sampleUnsigned

/-- A sample response message declaring the subject DID of `sampleDoc`. -/
def sampleRespMsg : DIDXResponseMsg :=
  { did := "GbuDUYXaUZRfHD2jeDuQuP", thread_id := "thread-1",
    did_doc_attach := some sampleSignedAttach }

/-- A sample response message declaring a DID different from the subject DID
of the attached document. -/
def sampleRespMsgMismatch : DIDXResponseMsg :=
  { sampleRespMsg with did := "55GkHamhTU1ZbTbV2ab9DE" }

theorem accept_response_state_did_checks_witness :
    accept_response [sampleRequestRecord] sampleRespMsg { sender_did := none } =
        Except.ok { sampleRequestRecord with
                      their_did := some "GbuDUYXaUZRfHD2jeDuQuP",
                      state := ConnState.completed } ∧
      accept_response [sampleAbandonedRecord] sampleRespMsg
          { sender_did := none } =
        Except.error
          (MgrError.didxError "Cannot accept response for connection in state") ∧
      accept_response [sampleRequestRecord] sampleRespMsgMismatch
          { sender_did := none } =
        Except.error
          (MgrError.didxError "Connection DID does not match DIDDoc id") := by
  have h1 := accept_response_state_did_checks [sampleRequestRecord]
    sampleRespMsg { sender_did := none } sampleRequestRecord rfl
  have h2 := accept_response_state_did_checks [sampleAbandonedRecord]
    sampleRespMsg { sender_did := none } sampleAbandonedRecord rfl
  have h3 := accept_response_state_did_checks [sampleRequestRecord]
    sampleRespMsgMismatch { sender_did := none } sampleRequestRecord rfl
  refine ⟨h1.2.2 sampleSignedAttach sampleDoc (Or.inl rfl) rfl rfl rfl, ?_, ?_⟩
  · exact h2.1 (by decide)
  · exact h3.2.1 sampleSignedAttach sampleDoc (Or.inl rfl) rfl rfl (by decide)

/-- C8: `diddoc_connection_targets` fails with a connection-manager error for
an absent document, a document with no DID, or one with zero services; for a
document with a DID and at least one service carrying at least one recipient
key and a non-empty endpoint it returns at least one connection target whose
recipient keys equal that services recipient keys. -/
theorem diddoc_connection_targets_spec (doc : Option DIDDoc) (k : String) :
    (doc = none → ∃ e, diddoc_connection_targets doc k = Except.error e) ∧
    (∀ d, doc = some d → d.did = none →
        ∃ e, diddoc_connection_targets doc k = Except.error e) ∧
    (∀ d, doc = some d → d.service = [] →
        ∃ e, diddoc_connection_targets doc k = Except.error e) ∧
    (∀ d owner s, doc = some d → d.did = some owner → s ∈ d.service →
        s.recipient_keys ≠ [] → s.endpoint ≠ "" →
        ∃ ts, diddoc_connection_targets doc k = Except.ok ts ∧
          ∃ t ∈ ts, t.recipient_keys = s.recipient_keys) := by
  refine ⟨?_, ?_, ?_, ?_⟩
  · intro h
    exact ⟨MgrError.baseConnError "No DIDDoc provided",
      by simp [diddoc_connection_targets, h]⟩
  · intro d hd hdid
    exact ⟨MgrError.baseConnError "DIDDoc has no DID",
      by simp [diddoc_connection_targets, hd, hdid]⟩
  · intro d hd hsvc
    rcases hdid : d.did with _ | owner
    · exact ⟨MgrError.baseConnError "DIDDoc has no DID",
        by simp [diddoc_connection_targets, hd, hdid]⟩
    · exact ⟨MgrError.baseConnError "No services defined by DIDDoc",
        by simp [diddoc_connection_targets, hd, hdid, hsvc]⟩
  · intro d owner s hd hdid hmem hrk hep
    have hsvc : d.service ≠ [] := by
      intro h0
      rw [h0] at hmem
      exact (List.not_mem_nil s) hmem
    refine ⟨d.service.map fun sv =>
      { did := owner, endpoint := sv.endpoint,
        recipient_keys := sv.recipient_keys,
        routing_keys := sv.routing_keys, sender_key := k }, ?_, ?_⟩
    · simp [diddoc_connection_targets, hd, hdid, hsvc]
    · exact ⟨_, List.mem_map_of_mem _ hmem, rfl⟩

theorem diddoc_connection_targets_spec_witness :
    (∃ e, diddoc_connection_targets none "sender-key" = Except.error e) ∧
      (∃ e, diddoc_connection_targets (some { did := none, service := [] })
          "sender-key" = Except.error e) ∧
      (∃ e, diddoc_connection_targets (some sampleDoc2) "sender-key" =
          Except.error e) ∧
      ∃ ts, diddoc_connection_targets (some sampleDoc) "sender-key" =
          Except.ok ts ∧
        ∃ t ∈ ts, t.recipient_keys = sampleService.recipient_keys := by
  have h1 := diddoc_connection_targets_spec none "sender-key"
  have h2 := diddoc_connection_targets_spec
    (some { did := none, service := [] }) "sender-key"
  have h3 := diddoc_connection_targets_spec (some sampleDoc2) "sender-key"
  have h4 := diddoc_connection_targets_spec (some sampleDoc) "sender-key"
  refine ⟨h1.1 rfl, h2.2.1 _ rfl rfl, h3.2.2.1 sampleDoc2 rfl rfl, ?_⟩
  exact h4.2.2.2 sampleDoc "GbuDUYXaUZRfHD2jeDuQuP" sampleService rfl rfl
    (by simp [sampleDoc]) (by decide) (by decide)

theorem routing_info_error_of_bad (svcs : List Service) (s : Service)
    (hmem : s ∈ svcs) (hbad : s.endpoint = "" ∨ s.recipient_keys = []) :
    ∃ e, routing_info svcs = Except.error e := by
  induction svcs with
  | nil => exact absurd hmem (List.not_mem_nil s)
  | cons hd tl ih =>
    rcases List.mem_cons.mp hmem with heq | htl
    · subst heq
      rcases hbad with hb | hb
      · exact ⟨MgrError.baseConnError "Routing DIDDoc service has no service endpoint",
          by simp [routing_info, hb]⟩
      · by_cases hep : s.endpoint = ""
        · exact ⟨MgrError.baseConnError "Routing DIDDoc service has no service endpoint",
            by simp [routing_info, hep]⟩
        · exact ⟨MgrError.baseConnError "Routing DIDDoc service has no recipient keys",
            by simp [routing_info, hep, hb]⟩
    · by_cases hep : hd.endpoint = ""
      · exact ⟨MgrError.baseConnError "Routing DIDDoc service has no service endpoint",
          by simp [routing_info, hep]⟩
      · by_cases hrk : hd.recipient_keys = []
        · exact ⟨MgrError.baseConnError "Routing DIDDoc service has no recipient keys",
            by simp [routing_info, hep, hrk]⟩
        · rcases ih htl with ⟨e, he⟩
          exact ⟨e, by simp [routing_info, hep, hrk, he, bind, Except.bind]⟩

theorem routing_info_ok_of_good (svcs : List Service)
    (hgood : ∀ s ∈ svcs, s.endpoint ≠ "" ∧ s.recipient_keys ≠ []) :
    ∃ rks, routing_info svcs = Except.ok rks := by
  induction svcs with
  | nil => exact ⟨[], rfl⟩
  | cons hd tl ih =>
    have hhd := hgood hd (List.mem_cons_self hd tl)
    rcases ih (fun s hs => hgood s (List.mem_cons_of_mem hd hs)) with ⟨rks, hrks⟩
    exact ⟨hd.routing_keys ++ hd.recipient_keys.take 1 ++ rks,
      by simp [routing_info, hhd.1, hhd.2, hrks, bind, Except.bind]⟩

/-- C9: `create_did_document` fails with a connection-manager error whenever
the routing connection is not COMPLETED, whenever the stored routing
documents service set is empty, and whenever a routing service lacks an
endpoint or recipient keys; it returns a document only in the COMPLETED case
with every check passed, and then every resulting service has at least one
recipient key and a non-empty endpoint. -/
theorem create_did_document_spec (did_info : DIDInfo) (rc : ConnRecord)
    (rdoc : DIDDoc) :
    (rc.state ≠ ConnState.completed →
        ∃ e, create_did_document did_info rc rdoc = Except.error e) ∧
    (rc.state = ConnState.completed → rdoc.service = [] →
        ∃ e, create_did_document did_info rc rdoc = Except.error e) ∧
    (∀ s, rc.state = ConnState.completed → s ∈ rdoc.service →
        (s.endpoint = "" ∨ s.recipient_keys = []) →
        ∃ e, create_did_document did_info rc rdoc = Except.error e) ∧
    (rc.state = ConnState.completed →
        (∀ s ∈ rdoc.service, s.endpoint ≠ "" ∧ s.recipient_keys ≠ []) →
        rdoc.service ≠ [] →
        ∃ d, create_did_document did_info rc rdoc = Except.ok d ∧
          d.service ≠ [] ∧
          ∀ sv ∈ d.service, sv.recipient_keys ≠ [] ∧ sv.endpoint ≠ "") := by
  refine ⟨?_, ?_, ?_, ?_⟩
  · intro hne
    exact ⟨MgrError.baseConnError "Router connection not completed",
      by simp [create_did_document, hne]⟩
  · intro hc hsvc
    exact ⟨MgrError.baseConnError "No services defined by routing DIDDoc",
      by simp [create_did_document, hc, hsvc]⟩
  · intro s hc hmem hbad
    have hsvc : rdoc.service ≠ [] := by
      intro h0
      rw [h0] at hmem
      exact (List.not_mem_nil s) hmem
    rcases routing_info_error_of_bad rdoc.service s hmem hbad with ⟨e, he⟩
    exact ⟨e, by simp [create_did_document, hc, hsvc, he, bind, Except.bind]⟩
  · intro hc hgood hsvc
    rcases routing_info_ok_of_good rdoc.service hgood with ⟨rks, hrks⟩
    refine ⟨{ did := some did_info.did,
              service := rdoc.service.map fun s =>
                { recipient_keys := [did_info.verkey],
                  routing_keys := rks, endpoint := s.endpoint } }, ?_, ?_, ?_⟩
    · simp [create_did_document, hc, hsvc, hrks, bind, Except.bind]
    · simp [hsvc]
    · intro sv hsv
      rcases List.mem_map.mp hsv with ⟨s0, hs0, rfl⟩
      exact ⟨by simp, (hgood s0 hs0).1⟩

/-- A sample Connection Record in COMPLETED state, a valid routing
connection. -/
def sampleCompletedRecord : ConnRecord :=
  { sampleRequestRecord with state := ConnState.completed }

/-- A routing document whose single service carries no recipient keys. -/
def sampleNoRecipKeysDoc : DIDDoc :=
  { did := some "GbuDUYXaUZRfHD2jeDuQuP",
    service := [{ recipient_keys := [], routing_keys := [],
                  endpoint := "http://localhost" }] }

theorem create_did_document_spec_witness :
    (∃ e, create_did_document sampleFresh sampleAbandonedRecord sampleDoc =
        Except.error e) ∧
      (∃ e, create_did_document sampleFresh sampleCompletedRecord sampleDoc2 =
          Except.error e) ∧
      (∃ e, create_did_document sampleFresh sampleCompletedRecord
          sampleNoRecipKeysDoc = Except.error e) ∧
      ∃ d, create_did_document sampleFresh sampleCompletedRecord sampleDoc =
          Except.ok d ∧
        d.service ≠ [] ∧
        ∀ sv ∈ d.service, sv.recipient_keys ≠ [] ∧ sv.endpoint ≠ "" := by
  have h1 := create_did_document_spec sampleFresh sampleAbandonedRecord sampleDoc
  have h2 := create_did_document_spec sampleFresh sampleCompletedRecord sampleDoc2
  have h3 := create_did_document_spec sampleFresh sampleCompletedRecord
    sampleNoRecipKeysDoc
  have h4 := create_did_document_spec sampleFresh sampleCompletedRecord sampleDoc
  refine ⟨h1.1 (by decide), h2.2.1 rfl rfl, ?_, ?_⟩
  · exact h3.2.2.1
      { recipient_keys := [], routing_keys := [], endpoint := "http://localhost" }
      rfl (by simp [sampleNoRecipKeysDoc]) (Or.inr rfl)
  · refine h4.2.2.2 rfl ?_ (by decide)
    intro s hs
    rcases List.mem_singleton.mp hs with rfl
    exact ⟨by decide, by decide⟩

/-- C10: with multi-tenancy enabled and a wallet id configured, every freshly
generated local key used inside `create_request`, `create_response`, or the
multi-use path of `receive_request` triggers exactly one
`add_key (wallet_id, verkey)` registrar call with that tenant id and that
key, and reuse of a pre-existing DID triggers zero calls. -/
theorem multitenant_add_key_exactly_once (w : String) (fresh : DIDInfo)
    (info : DIDInfo) (r : ConnRecord) (found : ConnRecord)
    (hreq : r.state = ConnState.request) (hmu : found.multi_use = true) :
    (create_request r ⟨true, some w⟩ none fresh none).map
        (fun out => out.add_key_calls) = Except.ok [(w, fresh.verkey)] ∧
    (create_request r ⟨true, some w⟩ (some info) fresh none).map
        (fun out => out.add_key_calls) = Except.ok [] ∧
    (create_response r ⟨true, some w⟩ none fresh none).map
        (fun out => out.add_key_calls) = Except.ok [(w, fresh.verkey)] ∧
    (create_response r ⟨true, some w⟩ (some info) fresh none).map
        (fun out => out.add_key_calls) = Except.ok [] ∧
    (receive_request found ⟨true, some w⟩ fresh found.invitation_key none).map
        (fun out => out.add_key_calls) = Except.ok [(w, fresh.verkey)] := by
  refine ⟨?_, ?_, ?_, ?_, ?_⟩
  · simp [create_request, mediation_record_if_granted, provision_local_did,
      bind, Except.bind, Except.map]
  · simp [create_request, mediation_record_if_granted, provision_local_did,
      bind, Except.bind, Except.map]
  · simp [create_response, hreq, mediation_record_if_granted,
      provision_local_did, bind, Except.bind, Except.map]
  · simp [create_response, hreq, mediation_record_if_granted,
      provision_local_did, bind, Except.bind, Except.map]
  · simp [receive_request, hmu, provision_local_did, bind, Except.bind,
      Except.map]

/-- A sample multi-use invitation record. -/
def sampleMultiUseRecord : ConnRecord :=
  { sampleRequestRecord with connection_id := "multiuse-conn",
                             multi_use := true }

theorem multitenant_add_key_exactly_once_witness :
    (create_request sampleRequestRecord ⟨true, some "test_wallet"⟩ none
          sampleFresh none).map (fun out => out.add_key_calls) =
        Except.ok [("test_wallet", sampleFresh.verkey)] ∧
      (create_response sampleRequestRecord ⟨true, some "test_wallet"⟩ none
          sampleFresh none).map (fun out => out.add_key_calls) =
        Except.ok [("test_wallet", sampleFresh.verkey)] ∧
      (create_response sampleRequestRecord ⟨true, some "test_wallet"⟩
          (some sampleFresh) sampleFresh none).map
          (fun out => out.add_key_calls) = Except.ok [] ∧
      (receive_request sampleMultiUseRecord ⟨true, some "test_wallet"⟩
          sampleFresh sampleMultiUseRecord.invitation_key none).map
          (fun out => out.add_key_calls) =
        Except.ok [("test_wallet", sampleFresh.verkey)] := by
  have h := multitenant_add_key_exactly_once "test_wallet" sampleFresh
    sampleFresh sampleRequestRecord sampleMultiUseRecord rfl rfl
  exact ⟨h.1, h.2.2.1, h.2.2.2.1, h.2.2.2.2⟩

theorem keylistUpdateRule_init_never_constructs_witness :
    keylistUpdateRule_init "3Dn1SJNPaCXcvvJvSbsFWP2xaCjMom3can8CQNhWrTRx"
        "add" = Except.error (PyError.nameError "key") :=
  (keylistUpdateRule_init_never_constructs
    "3Dn1SJNPaCXcvvJvSbsFWP2xaCjMom3can8CQNhWrTRx" "add").1
